import Mathlib

/-!
Verification of the two arbitrage pricing functions of `arbitrage_logic.py`:
`calculate_box_spread_arbitrage` and `calculate_calendar_spread_arbitrage`.
Python floats are modelled as rationals; the dynamically typed price fields
of the leg dictionaries are modelled by an explicit value type, and the
runtime faults Python can raise (IndexError on a short list, TypeError on
multiplying a non-numeric price by a float) are modelled with `Except`.
-/

/-- A Python value stored in a leg dictionary price field: `none` for an
absent key or an explicit `None` (both make `dict.get` return `None`),
`num` for a numeric price, `str` for a non-numeric placeholder string. -/
inductive PyVal where
  | none : PyVal
  | num : ℚ → PyVal
  | str : String → PyVal
  deriving DecidableEq

/-- One leg dictionary holding the two price fields the pricers read. -/
structure Leg where
  ask_price : PyVal
  bid_price : PyVal
  deriving DecidableEq

/-- The Python runtime faults reachable in the pricing code. -/
inductive PyError where
  | indexError : PyError
  | typeError : PyError
  deriving DecidableEq

/-- The returned float: the sentinel `-math.inf` or a finite value. -/
inductive Profit where
  | negInf : Profit
  | val : ℚ → Profit
  deriving DecidableEq

/-- `leg.get(key) is None`: true when the field is absent or null. -/
def PyVal.isNone : PyVal → Bool
  | PyVal.none => true
  | _ => false

/-- `leg_data[i]`: list indexing, raising IndexError when out of range. -/
def listGet (xs : List Leg) (i : ℕ) : Except PyError Leg :=
  match xs[i]? with
  | some x => Except.ok x
  | Option.none => Except.error PyError.indexError

/-- `price * rate`: multiplying a non-numeric value by a float raises a
TypeError (so does `None * rate`, unreachable after the guard). -/
def pyMul (v : PyVal) (r : ℚ) : Except PyError ℚ :=
  match v with
  | PyVal.num q => Except.ok (q * r)
  | _ => Except.error PyError.typeError

/-- `calculate_box_spread_arbitrage(k1, k2, leg_data, btc_usd_price,
transaction_fee_rate)` from `arbitrage_logic.py`, lines 3-60.  The guard
iterates every entry of `leg_data` and returns `-inf` at the first leg
whose `ask_price` or `bid_price` is `None`; otherwise the four leg prices
are read positionally and combined exactly as in the source. -/
def calculate_box_spread_arbitrage (k1 k2 : ℤ) (leg_data : List Leg)
    (btc_usd_price transaction_fee_rate : ℚ) : Except PyError Profit :=
  if leg_data.any (fun leg => leg.ask_price.isNone || leg.bid_price.isNone) then
    Except.ok Profit.negInf
  else
    (listGet leg_data 0).bind fun l0 =>
    (pyMul l0.ask_price btc_usd_price).bind fun leg0_cost_usd =>
    (listGet leg_data 1).bind fun l1 =>
    (pyMul l1.bid_price btc_usd_price).bind fun leg1_revenue_usd =>
    (listGet leg_data 2).bind fun l2 =>
    (pyMul l2.bid_price btc_usd_price).bind fun leg2_revenue_usd =>
    (listGet leg_data 3).bind fun l3 =>
    (pyMul l3.ask_price btc_usd_price).bind fun leg3_cost_usd =>
    let net_premium_usd := (leg0_cost_usd + leg3_cost_usd) - (leg1_revenue_usd + leg2_revenue_usd)
    let theoretical_value_usd : ℚ := ((k2 - k1 : ℤ) : ℚ)
    let total_premiums_for_fees := leg0_cost_usd + leg1_revenue_usd + leg2_revenue_usd + leg3_cost_usd
    let transaction_fees_usd := total_premiums_for_fees * transaction_fee_rate
    Except.ok (Profit.val (theoretical_value_usd - net_premium_usd - transaction_fees_usd))

/-- `calculate_calendar_spread_arbitrage(option_type, strike, shorter_leg_data,
longer_leg_data, btc_usd_price, transaction_fee_rate)` from
`arbitrage_logic.py`, lines 62-108. -/
def calculate_calendar_spread_arbitrage (option_type : String) (strike : ℤ)
    (shorter_leg_data longer_leg_data : Leg)
    (btc_usd_price transaction_fee_rate : ℚ) : Except PyError Profit :=
  if shorter_leg_data.bid_price.isNone || shorter_leg_data.ask_price.isNone ||
     longer_leg_data.bid_price.isNone || longer_leg_data.ask_price.isNone then
    Except.ok Profit.negInf
  else
    (pyMul shorter_leg_data.bid_price btc_usd_price).bind fun shorter_leg_revenue_usd =>
    (pyMul longer_leg_data.ask_price btc_usd_price).bind fun longer_leg_cost_usd =>
    let premium_diff_usd := shorter_leg_revenue_usd - longer_leg_cost_usd
    let total_premiums_for_fees := shorter_leg_revenue_usd + longer_leg_cost_usd
    let transaction_fees_usd := total_premiums_for_fees * transaction_fee_rate
    Except.ok (Profit.val (premium_diff_usd - transaction_fees_usd))

@[simp]
lemma PyVal.isNone_eq_true_iff (v : PyVal) : v.isNone = true ↔ v = PyVal.none := by
  cases v <;> simp [PyVal.isNone]

@[simp]
lemma PyVal.isNone_eq_false_iff (v : PyVal) : v.isNone = false ↔ v ≠ PyVal.none := by
  cases v <;> simp [PyVal.isNone]

/-- C1: with all four legs numeric, the box pricer returns exactly
`(k2 - k1) - ((ask0 + ask3) - (bid1 + bid2)) * spotRate -
(ask0 + bid1 + bid2 + ask3) * spotRate * feeRate`. -/
theorem box_spread_formula (k1 k2 : ℤ) (a0 b0 a1 b1 a2 b2 a3 b3 s f : ℚ) :
    calculate_box_spread_arbitrage k1 k2
      [⟨PyVal.num a0, PyVal.num b0⟩, ⟨PyVal.num a1, PyVal.num b1⟩,
       ⟨PyVal.num a2, PyVal.num b2⟩, ⟨PyVal.num a3, PyVal.num b3⟩] s f
    = Except.ok (Profit.val
        (((k2 - k1 : ℤ) : ℚ) - ((a0 + a3) - (b1 + b2)) * s - (a0 + b1 + b2 + a3) * s * f)) := by
  simp [calculate_box_spread_arbitrage, listGet, pyMul, PyVal.isNone, Except.bind]
  ring

/-- C2: if any one of the four legs has a missing (null) `ask_price` or
`bid_price`, the box pricer returns exactly the negative-infinity
sentinel, regardless of the other three legs. -/
theorem box_spread_missing_leg_negInf (k1 k2 : ℤ) (l0 l1 l2 l3 : Leg) (s f : ℚ)
    (h : l0.ask_price = PyVal.none ∨ l0.bid_price = PyVal.none ∨
         l1.ask_price = PyVal.none ∨ l1.bid_price = PyVal.none ∨
         l2.ask_price = PyVal.none ∨ l2.bid_price = PyVal.none ∨
         l3.ask_price = PyVal.none ∨ l3.bid_price = PyVal.none) :
    calculate_box_spread_arbitrage k1 k2 [l0, l1, l2, l3] s f
      = Except.ok Profit.negInf := by
  rw [calculate_box_spread_arbitrage, if_pos]
  simp only [List.any_cons, List.any_nil, Bool.or_eq_true, Bool.or_false,
    PyVal.isNone_eq_true_iff]
  tauto

/-- C2 witness: a concrete four-leg list with leg 1 missing its bid. -/
theorem box_spread_missing_leg_negInf_witness :
    calculate_box_spread_arbitrage 60000 61000
      [⟨PyVal.num 5, PyVal.num 4⟩, ⟨PyVal.num 2, PyVal.none⟩,
       ⟨PyVal.num 1, PyVal.num 1⟩, ⟨PyVal.num 4, PyVal.num 4⟩] 70000 (3/10000)
      = Except.ok Profit.negInf :=
  box_spread_missing_leg_negInf 60000 61000 _ _ _ _ 70000 (3/10000)
    (Or.inr (Or.inr (Or.inr (Or.inl rfl))))

/-- C3: with both legs numeric, the calendar pricer returns exactly
`(bid(shorter) * spotRate - ask(longer) * spotRate) -
(bid(shorter) * spotRate + ask(longer) * spotRate) * feeRate`. -/
theorem calendar_spread_formula (option_type : String) (strike : ℤ)
    (sa sb la lb s f : ℚ) :
    calculate_calendar_spread_arbitrage option_type strike
      ⟨PyVal.num sa, PyVal.num sb⟩ ⟨PyVal.num la, PyVal.num lb⟩ s f
    = Except.ok (Profit.val ((sb * s - la * s) - (sb * s + la * s) * f)) := by
  simp [calculate_calendar_spread_arbitrage, pyMul, PyVal.isNone, Except.bind]

/-- C4: if either calendar leg is missing (null) `bid_price` or
`ask_price`, the calendar pricer returns exactly the negative-infinity
sentinel, regardless of the other leg and of option type and strike. -/
theorem calendar_spread_missing_leg_negInf (option_type : String) (strike : ℤ)
    (shorter longer : Leg) (s f : ℚ)
    (h : shorter.bid_price = PyVal.none ∨ shorter.ask_price = PyVal.none ∨
         longer.bid_price = PyVal.none ∨ longer.ask_price = PyVal.none) :
    calculate_calendar_spread_arbitrage option_type strike shorter longer s f
      = Except.ok Profit.negInf := by
  rw [calculate_calendar_spread_arbitrage, if_pos]
  simp only [Bool.or_eq_true, PyVal.isNone_eq_true_iff]
  tauto

/-- C4 witness: a concrete pair of legs with the longer leg missing its ask. -/
theorem calendar_spread_missing_leg_negInf_witness :
    calculate_calendar_spread_arbitrage "CALL" 60000
      ⟨PyVal.num 2, PyVal.num 1⟩ ⟨PyVal.none, PyVal.num 3⟩ 70000 (3/10000)
      = Except.ok Profit.negInf :=
  calendar_spread_missing_leg_negInf "CALL" 60000 _ _ 70000 (3/10000)
    (Or.inr (Or.inr (Or.inr rfl)))

/-- C5: on the concrete profitable scenario of the test suite
(`k1=60000, k2=61000`, the four quoted legs, `spotRate=70000`,
`feeRate=0.0003`) the box pricer returns a value within `1e-5` of
`572.7459` (in exact rational arithmetic the value is `572.7459`). -/
theorem box_spread_concrete_profit :
    ∃ q : ℚ, calculate_box_spread_arbitrage 60000 61000
      [⟨PyVal.num 0.0050, PyVal.num 0.0049⟩, ⟨PyVal.num 0.0021, PyVal.num 0.0020⟩,
       ⟨PyVal.num 0.0011, PyVal.num 0.0010⟩, ⟨PyVal.num 0.0041, PyVal.num 0.0040⟩]
      70000 0.0003 = Except.ok (Profit.val q) ∧ |q - 572.7459| < 1e-5 := by
  refine ⟨572.7459, ?_, by norm_num⟩
  simp [calculate_box_spread_arbitrage, listGet, pyMul, PyVal.isNone, Except.bind]
  norm_num

/-- C6: on the test suite's missing-data scenario, where leg index 2's
`bid_price` holds the non-numeric placeholder string `'*'`, the code's
null-only guard passes and the arithmetic then faults with a TypeError
(`'*' * 70000.0`) instead of returning the negative-infinity sentinel the
test `test_box_spread_missing_price_data` asserts. -/
theorem box_spread_nonnumeric_bid_typeError :
    calculate_box_spread_arbitrage 60000 61000
      [⟨PyVal.num 0.0050, PyVal.num 0.0049⟩, ⟨PyVal.num 0.0021, PyVal.num 0.0020⟩,
       ⟨PyVal.num 0.0011, PyVal.str "*"⟩, ⟨PyVal.num 0.0041, PyVal.num 0.0040⟩]
      70000 0.0003 = Except.error PyError.typeError := by
  simp [calculate_box_spread_arbitrage, listGet, pyMul, PyVal.isNone, Except.bind]

/-- C8: the calendar pricer's result never depends on `option_type` or
`strike`: two calls differing only in those arguments return identical
values. -/
theorem calendar_spread_ignores_type_and_strike (ot1 ot2 : String) (st1 st2 : ℤ)
    (shorter longer : Leg) (s f : ℚ) :
    calculate_calendar_spread_arbitrage ot1 st1 shorter longer s f
      = calculate_calendar_spread_arbitrage ot2 st2 shorter longer s f := rfl

lemma PyVal.isNone_eq_false_of_ne {v : PyVal} (h : v ≠ PyVal.none) :
    v.isNone = false := by
  cases v <;> simp_all [PyVal.isNone]

/-- C7: for both pricers, with all prices, strikes and the spot rate fixed
and every required price numeric, whenever the fee base (the summed
converted notionals) is strictly positive the returned profit strictly
decreases as the fee rate increases. -/
theorem fee_rate_strict_antitone (k1 k2 : ℤ)
    (a0 b0 a1 b1 a2 b2 a3 b3 sa sb la lb s f1 f2 : ℚ)
    (hbox : 0 < a0 * s + b1 * s + b2 * s + a3 * s)
    (hcal : 0 < sb * s + la * s)
    (hf : f1 < f2) :
    (∃ q1 q2,
      calculate_box_spread_arbitrage k1 k2
        [⟨PyVal.num a0, PyVal.num b0⟩, ⟨PyVal.num a1, PyVal.num b1⟩,
         ⟨PyVal.num a2, PyVal.num b2⟩, ⟨PyVal.num a3, PyVal.num b3⟩] s f1
        = Except.ok (Profit.val q1) ∧
      calculate_box_spread_arbitrage k1 k2
        [⟨PyVal.num a0, PyVal.num b0⟩, ⟨PyVal.num a1, PyVal.num b1⟩,
         ⟨PyVal.num a2, PyVal.num b2⟩, ⟨PyVal.num a3, PyVal.num b3⟩] s f2
        = Except.ok (Profit.val q2) ∧
      q2 < q1) ∧
    (∃ q1 q2,
      calculate_calendar_spread_arbitrage "CALL" k1
        ⟨PyVal.num sa, PyVal.num sb⟩ ⟨PyVal.num la, PyVal.num lb⟩ s f1
        = Except.ok (Profit.val q1) ∧
      calculate_calendar_spread_arbitrage "CALL" k1
        ⟨PyVal.num sa, PyVal.num sb⟩ ⟨PyVal.num la, PyVal.num lb⟩ s f2
        = Except.ok (Profit.val q2) ∧
      q2 < q1) := by
  constructor
  · refine ⟨((k2 - k1 : ℤ) : ℚ) - ((a0 * s + a3 * s) - (b1 * s + b2 * s))
        - (a0 * s + b1 * s + b2 * s + a3 * s) * f1,
      ((k2 - k1 : ℤ) : ℚ) - ((a0 * s + a3 * s) - (b1 * s + b2 * s))
        - (a0 * s + b1 * s + b2 * s + a3 * s) * f2, ?_, ?_, ?_⟩
    · simp [calculate_box_spread_arbitrage, listGet, pyMul, PyVal.isNone, Except.bind]
    · simp [calculate_box_spread_arbitrage, listGet, pyMul, PyVal.isNone, Except.bind]
    · nlinarith [mul_pos hbox (sub_pos.mpr hf)]
  · refine ⟨(sb * s - la * s) - (sb * s + la * s) * f1,
      (sb * s - la * s) - (sb * s + la * s) * f2, ?_, ?_, ?_⟩
    · simp [calculate_calendar_spread_arbitrage, pyMul, PyVal.isNone, Except.bind]
    · simp [calculate_calendar_spread_arbitrage, pyMul, PyVal.isNone, Except.bind]
    · nlinarith [mul_pos hcal (sub_pos.mpr hf)]

/-- C7 witness: both pricers at all-one prices, fee base `4` resp. `2`,
fee rates `0 < 1`. -/
theorem fee_rate_strict_antitone_witness :
    (∃ q1 q2,
      calculate_box_spread_arbitrage 0 1
        [⟨PyVal.num 1, PyVal.num 1⟩, ⟨PyVal.num 1, PyVal.num 1⟩,
         ⟨PyVal.num 1, PyVal.num 1⟩, ⟨PyVal.num 1, PyVal.num 1⟩] 1 0
        = Except.ok (Profit.val q1) ∧
      calculate_box_spread_arbitrage 0 1
        [⟨PyVal.num 1, PyVal.num 1⟩, ⟨PyVal.num 1, PyVal.num 1⟩,
         ⟨PyVal.num 1, PyVal.num 1⟩, ⟨PyVal.num 1, PyVal.num 1⟩] 1 1
        = Except.ok (Profit.val q2) ∧
      q2 < q1) ∧
    (∃ q1 q2,
      calculate_calendar_spread_arbitrage "CALL" 0
        ⟨PyVal.num 1, PyVal.num 1⟩ ⟨PyVal.num 1, PyVal.num 1⟩ 1 0
        = Except.ok (Profit.val q1) ∧
      calculate_calendar_spread_arbitrage "CALL" 0
        ⟨PyVal.num 1, PyVal.num 1⟩ ⟨PyVal.num 1, PyVal.num 1⟩ 1 1
        = Except.ok (Profit.val q2) ∧
      q2 < q1) :=
  fee_rate_strict_antitone 0 1 1 1 1 1 1 1 1 1 1 1 1 1 1 0 1
    (by norm_num) (by norm_num) (by norm_num)

/-- C9 counterexample: a one-element legs list whose single leg is missing
both prices makes the box pricer return the negative-infinity sentinel —
it returns a value, it does not fault, refuting the claim that every call
with fewer than four legs fails. -/
theorem box_spread_short_list_counterexample :
    calculate_box_spread_arbitrage 60000 61000 [⟨PyVal.none, PyVal.none⟩]
      70000 (3/10000) = Except.ok Profit.negInf := by
  simp [calculate_box_spread_arbitrage, PyVal.isNone]

/-- C9 (amended): for a legs list of fewer than four entries all of whose
entries have both prices present (non-null), the box pricer does not
verify the length and faults (IndexError, or TypeError first when a
present price is non-numeric) rather than returning a value. -/
theorem box_spread_short_complete_list_faults (k1 k2 : ℤ) (legs : List Leg)
    (s f : ℚ) (hlen : legs.length < 4)
    (hc : ∀ l ∈ legs, l.ask_price ≠ PyVal.none ∧ l.bid_price ≠ PyVal.none) :
    ∃ e, calculate_box_spread_arbitrage k1 k2 legs s f = Except.error e := by
  rcases legs with _ | ⟨l0, _ | ⟨l1, _ | ⟨l2, _ | ⟨l3, rest⟩⟩⟩⟩
  · exact ⟨PyError.indexError,
      by simp [calculate_box_spread_arbitrage, listGet, Except.bind]⟩
  · obtain ⟨ha0, hb0⟩ := hc l0 (by simp)
    rcases h0 : l0.ask_price with _ | q0 | t0
    · exact absurd h0 ha0
    all_goals
      simp [calculate_box_spread_arbitrage, listGet, pyMul, PyVal.isNone, h0,
        PyVal.isNone_eq_false_of_ne hb0, Except.bind]
  · obtain ⟨ha0, hb0⟩ := hc l0 (by simp)
    obtain ⟨ha1, hb1⟩ := hc l1 (by simp)
    rcases h0 : l0.ask_price with _ | q0 | t0
    · exact absurd h0 ha0
    all_goals rcases h1 : l1.bid_price with _ | q1 | t1
    all_goals first
      | exact absurd h1 hb1
      | simp [calculate_box_spread_arbitrage, listGet, pyMul, PyVal.isNone, h0, h1,
          PyVal.isNone_eq_false_of_ne hb0, PyVal.isNone_eq_false_of_ne ha1,
          PyVal.isNone_eq_false_of_ne hb1, Except.bind]
  · obtain ⟨ha0, hb0⟩ := hc l0 (by simp)
    obtain ⟨ha1, hb1⟩ := hc l1 (by simp)
    obtain ⟨ha2, hb2⟩ := hc l2 (by simp)
    rcases h0 : l0.ask_price with _ | q0 | t0
    · exact absurd h0 ha0
    all_goals rcases h1 : l1.bid_price with _ | q1 | t1
    all_goals first
      | exact absurd h1 hb1
      | rcases h2 : l2.bid_price with _ | q2 | t2
    all_goals first
      | exact absurd h2 hb2
      | simp [calculate_box_spread_arbitrage, listGet, pyMul, PyVal.isNone, h0, h1, h2,
          PyVal.isNone_eq_false_of_ne hb0, PyVal.isNone_eq_false_of_ne ha1,
          PyVal.isNone_eq_false_of_ne hb1, PyVal.isNone_eq_false_of_ne ha2,
          PyVal.isNone_eq_false_of_ne hb2, Except.bind]
  · simp only [List.length_cons] at hlen
    omega

/-- C9 witness: a single complete leg; the call faults. -/
theorem box_spread_short_complete_list_faults_witness :
    ([(⟨PyVal.num 1, PyVal.num 1⟩ : Leg)] : List Leg).length < 4 ∧
    (∀ l ∈ ([(⟨PyVal.num 1, PyVal.num 1⟩ : Leg)] : List Leg),
      l.ask_price ≠ PyVal.none ∧ l.bid_price ≠ PyVal.none) ∧
    ∃ e, calculate_box_spread_arbitrage 0 1
      [(⟨PyVal.num 1, PyVal.num 1⟩ : Leg)] 1 0 = Except.error e :=
  ⟨by decide, by decide,
    box_spread_short_complete_list_faults 0 1 _ 1 0 (by decide) (by decide)⟩

/-- C10: the box guard scans every entry of the legs list: (i) any list
containing an entry with a missing price returns the negative-infinity
sentinel without faulting, whatever the list length; (ii) when every
entry is complete, entries beyond index 3 never affect the result. -/
theorem box_spread_guard_scans_all_legs :
    (∀ (k1 k2 : ℤ) (legs : List Leg) (s f : ℚ),
      (∃ l ∈ legs, l.ask_price = PyVal.none ∨ l.bid_price = PyVal.none) →
      calculate_box_spread_arbitrage k1 k2 legs s f = Except.ok Profit.negInf) ∧
    (∀ (k1 k2 : ℤ) (l0 l1 l2 l3 : Leg) (r1 r2 : List Leg) (s f : ℚ),
      (∀ l ∈ l0 :: l1 :: l2 :: l3 :: r1,
        l.ask_price ≠ PyVal.none ∧ l.bid_price ≠ PyVal.none) →
      (∀ l ∈ l0 :: l1 :: l2 :: l3 :: r2,
        l.ask_price ≠ PyVal.none ∧ l.bid_price ≠ PyVal.none) →
      calculate_box_spread_arbitrage k1 k2 (l0 :: l1 :: l2 :: l3 :: r1) s f =
        calculate_box_spread_arbitrage k1 k2 (l0 :: l1 :: l2 :: l3 :: r2) s f) := by
  constructor
  · rintro k1 k2 legs s f ⟨l, hl, hmiss⟩
    rw [calculate_box_spread_arbitrage, if_pos]
    rw [List.any_eq_true]
    exact ⟨l, hl, by rcases hmiss with h | h <;> simp [h, PyVal.isNone]⟩
  · intro k1 k2 l0 l1 l2 l3 r1 r2 s f hc1 hc2
    have g1 : (l0 :: l1 :: l2 :: l3 :: r1).any
        (fun leg => leg.ask_price.isNone || leg.bid_price.isNone) = false := by
      rw [List.any_eq_false]
      intro l hl
      obtain ⟨h1, h2⟩ := hc1 l hl
      simp [PyVal.isNone_eq_false_of_ne h1, PyVal.isNone_eq_false_of_ne h2]
    have g2 : (l0 :: l1 :: l2 :: l3 :: r2).any
        (fun leg => leg.ask_price.isNone || leg.bid_price.isNone) = false := by
      rw [List.any_eq_false]
      intro l hl
      obtain ⟨h1, h2⟩ := hc2 l hl
      simp [PyVal.isNone_eq_false_of_ne h1, PyVal.isNone_eq_false_of_ne h2]
    simp [calculate_box_spread_arbitrage, g1, g2, listGet, Except.bind]

/-- C10 witness: a short list with a missing price returns the sentinel,
and two five-leg lists differing only at index 4 price identically. -/
theorem box_spread_guard_scans_all_legs_witness :
    calculate_box_spread_arbitrage 0 1 [⟨PyVal.none, PyVal.num 1⟩] 1 0
      = Except.ok Profit.negInf ∧
    calculate_box_spread_arbitrage 0 1
      [⟨PyVal.num 1, PyVal.num 1⟩, ⟨PyVal.num 1, PyVal.num 1⟩,
       ⟨PyVal.num 1, PyVal.num 1⟩, ⟨PyVal.num 1, PyVal.num 1⟩,
       ⟨PyVal.num 2, PyVal.num 2⟩] 1 0 =
    calculate_box_spread_arbitrage 0 1
      [⟨PyVal.num 1, PyVal.num 1⟩, ⟨PyVal.num 1, PyVal.num 1⟩,
       ⟨PyVal.num 1, PyVal.num 1⟩, ⟨PyVal.num 1, PyVal.num 1⟩,
       ⟨PyVal.num 3, PyVal.num 3⟩] 1 0 :=
  ⟨box_spread_guard_scans_all_legs.1 0 1 _ 1 0
      ⟨⟨PyVal.none, PyVal.num 1⟩, by simp, Or.inl rfl⟩,
    box_spread_guard_scans_all_legs.2 0 1 _ _ _ _ _ _ 1 0
      (by decide) (by decide)⟩
